import Mathlib

/-!
A shallow embedding of the document storage service
(class DocumentStorageService in document_storage_service.py): the debounced
save policy, the background save worker, version-chain management and the
bounded operation log, together with proofs about the specified behaviour.

Modelling conventions:
* timestamps are integers; the code compares elapsed seconds against a
  10-second interval, and only the ordered additive structure of time is
  relevant to the claims;
* the durable store is a `DB` record: a keyed map of document rows plus
  append-only lists of version rows and operation rows;
* every transactional store call that the Python code wraps in try/except
  takes a `commit_ok : Bool` oracle; `commit_ok = false` models the store
  call raising, in which case nothing is committed and the exception is
  swallowed exactly where the code catches it.
-/

namespace DocStorage

/-- Embeds `self.save_interval = 10.0`: the minimal elapsed time (seconds)
after which a save is always triggered. -/
def save_interval : Int := 10

/-- Embeds `self.min_content_change = 10`: the minimal number of changed
characters that forces a save. -/
def min_content_change : Nat := 10

/-- Embeds `self.sentence_endings`: the sentence end markers, as the list of
one-character strings the constructor builds. -/
def sentence_endings : List String :=
  [".", "!", "?", "。", "！", "？", "\n"]

/-- Per-document transient state: one entry of `self.document_states`
(`last_save` timestamp and `last_content`); the `pending_saves` field is
always reset to the empty list and never read, so it is omitted. -/
structure DocState where
  last_save : Int
  last_content : String
  deriving DecidableEq

/-- Embeds `_is_sentence_complete(old_content, new_content)`: the incoming
content must be strictly longer, and the freshly added suffix, with trailing
whitespace stripped, must end with one of the sentence end markers. -/
def is_sentence_complete (old_content new_content : String) : Bool :=
  if new_content.length ≤ old_content.length then
    false
  else
    let added_content := new_content.drop old_content.length
    sentence_endings.any (fun ending => added_content.trimRight.endsWith ending)

/-- Embeds `_should_save_document(document_id, content)`: the pure save
policy, reading the transient state map and the current time. -/
def should_save_document (document_states : Nat → Option DocState)
    (document_id : Nat) (content : String) (current_time : Int) : Bool :=
  match document_states document_id with
  | none => true
  | some state =>
    if current_time - state.last_save ≥ save_interval then
      true
    else if state.last_content ≠ content then
      let content_diff := ((content.length : Int) - (state.last_content.length : Int)).natAbs
      if content_diff ≥ min_content_change then
        true
      else if is_sentence_complete state.last_content content then
        true
      else
        false
    else
      false

/-- The sentence terminators as the specification lists them: ASCII and CJK
variants of the period, the exclamation mark and the question mark, plus the
newline character. -/
def spec_terminators : List Char :=
  ['.', '!', '?', '。', '！', '？', '\n']

/-- Specification reading of rule 3b: the suffix appended since the last
saved content, after trimming trailing whitespace, ends with a sentence
terminator character. -/
def spec_suffix_completes (last_saved incoming : String) : Bool :=
  spec_terminators.any (fun c =>
    (incoming.drop last_saved.length).trimRight.endsWith (String.singleton c))

/-- The save policy exactly as the specification words it, an ordered
decision list over (transient state, incoming content, current time):
no state, elapsed interval, large length change, completed sentence on a
strictly longer content, otherwise skip. -/
def spec_decision (state : Option DocState) (incoming : String) (now : Int) : Bool :=
  match state with
  | none => true
  | some s =>
    if now - s.last_save ≥ save_interval then
      true
    else if s.last_content ≠ incoming ∧
        ((incoming.length : Int) - (s.last_content.length : Int)).natAbs ≥ min_content_change then
      true
    else if s.last_content ≠ incoming ∧ s.last_content.length < incoming.length ∧
        spec_suffix_completes s.last_content incoming then
      true
    else
      false

theorem list_any_map {α β : Type} (f : α → β) (l : List α) (p : β → Bool) :
    (l.map f).any p = l.any (fun a => p (f a)) := by
  induction l with
  | nil => rfl
  | cons a l ih => simp [ih]

theorem sentence_endings_eq_map :
    sentence_endings = spec_terminators.map String.singleton := by
  decide

theorem is_sentence_complete_eq (old_content new_content : String) :
    is_sentence_complete old_content new_content =
      (decide (old_content.length < new_content.length) &&
        spec_suffix_completes old_content new_content) := by
  unfold is_sentence_complete spec_suffix_completes
  by_cases h : new_content.length ≤ old_content.length
  · simp [h, Nat.not_lt.mpr h]
  · have h' : old_content.length < new_content.length := Nat.lt_of_not_le h
    rw [if_neg h]
    simp only [sentence_endings_eq_map, list_any_map]
    simp [h']

/-- C1: the save policy, evaluated on (transient state, incoming content,
current time), decides exactly in the order the specification gives: missing
state saves; elapsed time at least `save_interval` saves; changed content
with an absolute length difference of at least `min_content_change` saves;
changed, strictly longer content whose appended suffix (trailing whitespace
trimmed) ends with a sentence terminator saves; everything else skips. -/
theorem save_policy_decides_in_spec_order (document_states : Nat → Option DocState)
    (document_id : Nat) (content : String) (current_time : Int) :
    should_save_document document_states document_id content current_time =
      spec_decision (document_states document_id) content current_time := by
  unfold should_save_document spec_decision
  cases document_states document_id with
  | none => rfl
  | some s =>
    by_cases ht : current_time - s.last_save ≥ save_interval
    · simp [ht]
    · simp only [if_neg ht]
      by_cases hne : s.last_content ≠ content
      · by_cases hdiff :
            ((content.length : Int) - (s.last_content.length : Int)).natAbs ≥ min_content_change
        · simp [hne, hdiff]
        · simp only [hne, hdiff, if_neg, if_pos, and_true, and_false, true_and, false_and,
            if_false, is_sentence_complete_eq]
          by_cases hlt : s.last_content.length < content.length
          · simp [hlt, hne, hdiff]
          · simp [hlt, hne, hdiff]
      · simp at hne
        simp [hne]

/-- Embeds the `OperationType` enum of the document models. -/
inductive OperationType
  | INSERT
  | DELETE
  deriving DecidableEq

/-- A row of the `documents` table, with the columns the service touches. -/
structure Document where
  id : Nat
  title : String
  content : String
  version : Nat
  last_editor_id : Option Nat
  owner_id : Nat
  created_at : Int
  updated_at : Int
  deriving DecidableEq

/-- A row of the `document_versions` table: an immutable snapshot tagged with
the version number it supersedes. -/
structure DocumentVersion where
  document_id : Nat
  version_number : Nat
  title : String
  content : String
  changed_by : Nat
  change_description : String
  deriving DecidableEq

/-- A row of the `document_operations` table. `id` and `created_at` are
store-assigned columns; the service supplies the rest. -/
structure DocumentOperation where
  id : Nat
  document_id : Nat
  user_id : Nat
  operation_id : String
  sequence_number : Int
  operation_type : OperationType
  start_position : Int
  end_position : Int
  content : String
  created_at : Int
  deriving DecidableEq

/-- The durable store: document rows keyed by id (the `select ... where
Document.id == document_id` / `scalar_one_or_none` access pattern), and the
two append-only tables. -/
structure DB where
  documents : Nat → Option Document
  versions : List DocumentVersion
  operations : List DocumentOperation

/-- Python `document.last_editor_id or document.owner_id`: an absent (or
falsy, i.e. zero) editor id falls back to the owner id. -/
def editor_or_owner (last_editor_id : Option Nat) (owner_id : Nat) : Nat :=
  match last_editor_id with
  | none => owner_id
  | some e => if e = 0 then owner_id else e

/-- Embeds `_save_document_content(document_id, user_id, content)`. A missing
document or unchanged content returns without writing; otherwise the old
content is archived as a version row tagged with the pre-flush version
number and the document row is overwritten, in one commit. `commit_ok`
models the fate of that transactional call: when it is `false` the raised
exception is caught by the function's own try/except and the store is left
untouched (nothing was committed). -/
def save_document_content (db : DB) (document_id user_id : Nat)
    (content : String) (now : Int) (commit_ok : Bool) : DB :=
  if commit_ok then
    match db.documents document_id with
    | none => db
    | some document =>
      if document.content = content then
        db
      else
        let old_version : DocumentVersion :=
          { document_id := document_id
            version_number := document.version
            title := document.title
            content := document.content
            changed_by := editor_or_owner document.last_editor_id document.owner_id
            change_description := "自动保存 - 版本 " ++ toString document.version }
        let document' : Document :=
          { document with
            content := content
            version := document.version + 1
            last_editor_id := some user_id
            updated_at := now }
        { db with
          versions := db.versions ++ [old_version]
          documents := fun i => if i = document_id then some document' else db.documents i }
  else
    db

/-- Concrete sample rows used to instantiate theorems with hypotheses. -/
def sample_document : Document :=
  { id := 1
    title := "t"
    content := "abc"
    version := 3
    last_editor_id := none
    owner_id := 7
    created_at := 0
    updated_at := 0 }

/-- A concrete sample store holding only `sample_document` under id 1. -/
def sample_db : DB :=
  { documents := fun i => if i = 1 then some sample_document else none
    versions := []
    operations := [] }

/-- C2: a worker flush on an existing document whose stored content differs
from the incoming content appends exactly one version row carrying the
pre-flush version number and pre-flush content, and in the same commit the
document row gets the incoming content, a version counter larger by exactly
one, the editor id and the new timestamp. -/
theorem flush_archives_then_overwrites (db : DB) (document_id user_id : Nat)
    (content : String) (now : Int) (document : Document)
    (hdoc : db.documents document_id = some document)
    (hne : document.content ≠ content) :
    ∃ v : DocumentVersion,
      (save_document_content db document_id user_id content now true).versions =
        db.versions ++ [v] ∧
      v.document_id = document_id ∧
      v.version_number = document.version ∧
      v.content = document.content ∧
      ∃ d : Document,
        (save_document_content db document_id user_id content now true).documents document_id =
          some d ∧
        d.content = content ∧
        d.version = document.version + 1 ∧
        d.last_editor_id = some user_id ∧
        d.updated_at = now := by
  unfold save_document_content
  rw [hdoc]
  simp only [if_pos rfl, if_neg hne, if_true]
  refine ⟨_, rfl, rfl, rfl, rfl,
    { document with
      content := content
      version := document.version + 1
      last_editor_id := some user_id
      updated_at := now },
    ?_, rfl, rfl, rfl, rfl⟩
  simp

/-- Closed witness for C2 on a concrete store: a document at version 3 with
content "abc" flushed with content "xyz". -/
theorem flush_archives_then_overwrites_witness :
    ∃ v : DocumentVersion,
      (save_document_content sample_db 1 5 "xyz" 42 true).versions =
        sample_db.versions ++ [v] ∧
      v.document_id = 1 ∧
      v.version_number = sample_document.version ∧
      v.content = sample_document.content ∧
      ∃ d : Document,
        (save_document_content sample_db 1 5 "xyz" 42 true).documents 1 = some d ∧
        d.content = "xyz" ∧
        d.version = sample_document.version + 1 ∧
        d.last_editor_id = some 5 ∧
        d.updated_at = 42 :=
  flush_archives_then_overwrites sample_db 1 5 "xyz" 42 sample_document rfl (by decide)

/-- C7: a worker flush on a document whose stored content already equals the
incoming content performs no write at all: the store (document rows, version
rows, operation rows) is returned unchanged. -/
theorem flush_skips_duplicate_content (db : DB) (document_id user_id : Nat)
    (content : String) (now : Int) (commit_ok : Bool) (document : Document)
    (hdoc : db.documents document_id = some document)
    (heq : document.content = content) :
    save_document_content db document_id user_id content now commit_ok = db := by
  unfold save_document_content
  cases commit_ok with
  | false => rfl
  | true => rw [hdoc]; simp [heq]

/-- Closed witness for C7: flushing content "abc" onto a document already
storing "abc" returns the store unchanged. -/
theorem flush_skips_duplicate_content_witness :
    save_document_content sample_db 1 5 "abc" 42 true = sample_db :=
  flush_skips_duplicate_content sample_db 1 5 "abc" 42 true sample_document rfl (by decide)

/-- Embeds the version-row lookup of `restore_version`: first row matching
`DocumentVersion.document_id == document_id` and
`DocumentVersion.version_number == version_number`. -/
def find_version (db : DB) (document_id version_number : Nat) : Option DocumentVersion :=
  db.versions.find? (fun v =>
    v.document_id == document_id && v.version_number == version_number)

/-- Embeds `restore_version(document_id, version_number, user_id)`: missing
version row or missing document returns `false`; otherwise the current
content is archived as a version row tagged with the current live version
number, the archived content of the target row is copied into the document,
the counter advances by one, and `true` is returned. `commit_ok = false`
models the transaction raising, which the function's try/except turns into
a `false` return with the store untouched. -/
def restore_version (db : DB) (document_id version_number user_id : Nat)
    (now : Int) (commit_ok : Bool) : Bool × DB :=
  if commit_ok then
    match find_version db document_id version_number with
    | none => (false, db)
    | some version =>
      match db.documents document_id with
      | none => (false, db)
      | some document =>
        let current_version : DocumentVersion :=
          { document_id := document_id
            version_number := document.version
            title := document.title
            content := document.content
            changed_by := editor_or_owner document.last_editor_id document.owner_id
            change_description := "恢复前版本 - 版本 " ++ toString document.version }
        let document' : Document :=
          { document with
            content := version.content
            version := document.version + 1
            last_editor_id := some user_id
            updated_at := now }
        (true,
          { db with
            versions := db.versions ++ [current_version]
            documents := fun i => if i = document_id then some document' else db.documents i })
  else
    (false, db)

/-- C3: restore fails (returns `false`) when the target version row or the
document is absent; on success it archives the pre-restore content under the
pre-restore live version number, copies the archived content of the target
row into the document, advances the counter by exactly one — in particular
strictly, and never to the target number `v` itself whenever `v` does not
exceed the live counter (which the version-chain invariant guarantees) —
and returns `true`. -/
theorem restore_version_spec (db : DB) (document_id version_number user_id : Nat)
    (now : Int) :
    (find_version db document_id version_number = none →
      (restore_version db document_id version_number user_id now true).1 = false) ∧
    (db.documents document_id = none →
      (restore_version db document_id version_number user_id now true).1 = false) ∧
    (∀ version document,
      find_version db document_id version_number = some version →
      db.documents document_id = some document →
      version_number ≤ document.version →
      (restore_version db document_id version_number user_id now true).1 = true ∧
      ∃ v : DocumentVersion,
        (restore_version db document_id version_number user_id now true).2.versions =
          db.versions ++ [v] ∧
        v.version_number = document.version ∧
        v.content = document.content ∧
        ∃ d : Document,
          (restore_version db document_id version_number user_id now true).2.documents
            document_id = some d ∧
          d.content = version.content ∧
          d.version = document.version + 1 ∧
          document.version < d.version ∧
          d.version ≠ version_number) := by
  refine ⟨fun hv => ?_, fun hd => ?_, fun version document hv hd hle => ?_⟩
  · unfold restore_version
    rw [hv]
    rfl
  · unfold restore_version
    cases hv : find_version db document_id version_number with
    | none => rfl
    | some version => simp [hd]
  · unfold restore_version
    rw [hv, hd]
    refine ⟨rfl, _, rfl, rfl, rfl,
      { document with
        content := version.content
        version := document.version + 1
        last_editor_id := some user_id
        updated_at := now },
      ?_, rfl, rfl, Nat.lt_succ_self _, ?_⟩
    · simp
    · exact Nat.ne_of_gt (Nat.lt_succ_of_le hle)

/-- Closed witness for C3: restoring document 1 to an archived version 2
(content "old") from a live version 3 bumps the counter to 4 and archives
the pre-restore content. -/
theorem restore_version_spec_witness :
    (restore_version
        { sample_db with
          versions := [{ document_id := 1, version_number := 2, title := "t",
                         content := "old", changed_by := 7,
                         change_description := "d" }] }
        1 2 5 42 true).1 = true ∧
    ∃ v : DocumentVersion,
      (restore_version
          { sample_db with
            versions := [{ document_id := 1, version_number := 2, title := "t",
                           content := "old", changed_by := 7,
                           change_description := "d" }] }
          1 2 5 42 true).2.versions =
        ({ sample_db with
           versions := [{ document_id := 1, version_number := 2, title := "t",
                          content := "old", changed_by := 7,
                          change_description := "d" }] } : DB).versions ++ [v] ∧
      v.version_number = sample_document.version ∧
      v.content = sample_document.content ∧
      ∃ d : Document,
        (restore_version
            { sample_db with
              versions := [{ document_id := 1, version_number := 2, title := "t",
                             content := "old", changed_by := 7,
                             change_description := "d" }] }
            1 2 5 42 true).2.documents 1 = some d ∧
        d.content = "old" ∧
        d.version = sample_document.version + 1 ∧
        sample_document.version < d.version ∧
        d.version ≠ 2 :=
  (restore_version_spec
      { sample_db with
        versions := [{ document_id := 1, version_number := 2, title := "t",
                       content := "old", changed_by := 7,
                       change_description := "d" }] }
      1 2 5 42).2.2
    { document_id := 1, version_number := 2, title := "t", content := "old",
      changed_by := 7, change_description := "d" }
    sample_document rfl rfl (by decide)

/-- The operation payload dictionary a caller may attach to a save request,
with the keys `_save_operation` reads; an absent key is `none`. -/
structure OpPayload where
  id : Option String
  sequence : Option Int
  type : Option String
  position : Option Int
  content : Option String
  deriving DecidableEq

/-- Embeds the synthesized fallback operation id
`f"op_{document_id}_{user_id}_{asyncio.get_event_loop().time()}"`, with the
event-loop clock reading passed in as `loop_time`. -/
def synth_operation_id (document_id user_id : Nat) (loop_time : Int) : String :=
  "op_" ++ toString document_id ++ "_" ++ toString user_id ++ "_" ++ toString loop_time

/-- Embeds the `DocumentOperation(...)` record built by `_save_operation`:
every `operation.get` default is materialised here, the operation type is
INSERT exactly when the payload's type field equals "insert", and the end
position is start position plus the length of the payload content. `row_id`
and `now` are the store-assigned primary key and `created_at`. -/
def mk_operation_record (document_id user_id : Nat) (operation : OpPayload)
    (row_id : Nat) (now loop_time : Int) : DocumentOperation :=
  { id := row_id
    document_id := document_id
    user_id := user_id
    operation_id := operation.id.getD (synth_operation_id document_id user_id loop_time)
    sequence_number := operation.sequence.getD 0
    operation_type :=
      if operation.type = some "insert" then OperationType.INSERT else OperationType.DELETE
    start_position := operation.position.getD 0
    end_position := operation.position.getD 0 + ((operation.content.getD "").length : Int)
    content := operation.content.getD ""
    created_at := now }

/-- Embeds `_save_operation(document_id, user_id, operation)`: build the
operation record and commit it; on a raised store error (`commit_ok =
false`) the exception is caught and nothing is appended. -/
def save_operation (db : DB) (document_id user_id : Nat) (operation : OpPayload)
    (row_id : Nat) (now loop_time : Int) (commit_ok : Bool) : DB :=
  if commit_ok then
    { db with
      operations :=
        db.operations ++ [mk_operation_record document_id user_id operation row_id now loop_time] }
  else
    db

/-- C5 counterexample: a payload whose type field is absent is recorded as a
DELETE operation, not as an INSERT as the claim states; concretely, appending
the field-less payload to an empty log yields exactly one row whose type is
DELETE. -/
theorem missing_type_recorded_as_delete :
    (save_operation { documents := fun _ => none, versions := [], operations := [] }
        1 2 { id := none, sequence := none, type := none, position := none, content := none }
        9 0 0 true).operations.map (fun o => o.operation_type) = [OperationType.DELETE] ∧
    OperationType.DELETE ≠ OperationType.INSERT := by
  exact ⟨rfl, by decide⟩

/-- C5 (amended): a committed `_save_operation` appends exactly one row, and
the recorded operation type of the built record is INSERT precisely when the
payload's type field is the string "insert"; any other value, including an
absent or unrecognized type field, is recorded as DELETE. -/
theorem operation_type_insert_iff_marked_insert (db : DB) (document_id user_id : Nat)
    (operation : OpPayload) (row_id : Nat) (now loop_time : Int) :
    (save_operation db document_id user_id operation row_id now loop_time true).operations =
      db.operations ++ [mk_operation_record document_id user_id operation row_id now loop_time] ∧
    ((mk_operation_record document_id user_id operation row_id now loop_time).operation_type =
        OperationType.INSERT ↔ operation.type = some "insert") ∧
    ((mk_operation_record document_id user_id operation row_id now loop_time).operation_type =
        OperationType.DELETE ↔ operation.type ≠ some "insert") := by
  refine ⟨rfl, ?_, ?_⟩ <;>
    · unfold mk_operation_record
      by_cases h : operation.type = some "insert" <;> simp [h]

/-- C10: for every appended operation record, DELETE operations included, the
end position equals the start position plus the length of the recorded
content, and absent payload fields take their defaults: start position 0,
empty content, sequence number 0, and the synthesized operation id from the
document id, the user id and the event-loop clock. -/
theorem operation_record_fields (document_id user_id : Nat) (operation : OpPayload)
    (row_id : Nat) (now loop_time : Int) :
    (mk_operation_record document_id user_id operation row_id now loop_time).end_position =
      (mk_operation_record document_id user_id operation row_id now loop_time).start_position +
        (((mk_operation_record document_id user_id operation row_id now loop_time).content.length :
          Int)) ∧
    (mk_operation_record document_id user_id operation row_id now loop_time).start_position =
      operation.position.getD 0 ∧
    (mk_operation_record document_id user_id operation row_id now loop_time).content =
      operation.content.getD "" ∧
    (mk_operation_record document_id user_id operation row_id now loop_time).sequence_number =
      operation.sequence.getD 0 ∧
    (mk_operation_record document_id user_id operation row_id now loop_time).operation_id =
      operation.id.getD (synth_operation_id document_id user_id loop_time) :=
  ⟨rfl, rfl, rfl, rfl, rfl⟩

/-- A queued save request `(document_id, user_id, content, operation)` as
`save_content` enqueues it. -/
structure SaveRequest where
  document_id : Nat
  user_id : Nat
  content : String
  operation : Option OpPayload
  deriving DecidableEq

/-- The per-request environment the worker draws from the outside world:
the wall clock, the event-loop clock, the store-assigned row id for an
appended operation, and the fate of the two transactional commits. -/
structure StepEnv where
  now : Int
  loop_time : Int
  op_row_id : Nat
  save_commit_ok : Bool
  op_commit_ok : Bool

/-- The service's mutable state as the worker sees it: the durable store
plus the in-memory `self.document_states` map. -/
structure ServiceState where
  db : DB
  document_states : Nat → Option DocState

/-- Embeds `_update_document_state(document_id, content)`: overwrite the
transient entry with the current time and the just-submitted content. -/
def update_document_state (document_states : Nat → Option DocState)
    (document_id : Nat) (content : String) (now : Int) : Nat → Option DocState :=
  fun i =>
    if i = document_id then some { last_save := now, last_content := content }
    else document_states i

/-- Embeds one pass of the `_background_save_worker` loop body over a
dequeued request: evaluate the save policy; when it approves, run the
content flush and then unconditionally update the transient tracker; then,
when an operation payload is present, append it to the operation log. -/
def process_request (s : ServiceState) (req : SaveRequest) (env : StepEnv) : ServiceState :=
  let s1 :=
    if should_save_document s.document_states req.document_id req.content env.now then
      { db := save_document_content s.db req.document_id req.user_id req.content
          env.now env.save_commit_ok
        document_states :=
          update_document_state s.document_states req.document_id req.content env.now }
    else
      s
  match req.operation with
  | some operation =>
    { s1 with
      db := save_operation s1.db req.document_id req.user_id operation
        env.op_row_id env.now env.loop_time env.op_commit_ok }
  | none => s1

/-- Embeds `_background_save_worker`: dequeue until the `None` stop sentinel,
processing each real request with that step's environment; every failure
inside a step is caught (the step function is total), so the loop only ever
stops at the sentinel. An exhausted queue means the worker is still waiting,
modelled by returning the state reached so far. -/
def run_worker : ServiceState → List (Option SaveRequest) → (Nat → StepEnv) → Nat → ServiceState
  | s, [], _, _ => s
  | s, none :: _, _, _ => s
  | s, some req :: rest, envs, i => run_worker (process_request s req (envs i)) rest envs (i + 1)

/-- Sequential processing of a list of real requests, one environment per
step: the reference behaviour the worker must exhibit on the requests
enqueued before the sentinel. -/
def process_all : ServiceState → List SaveRequest → (Nat → StepEnv) → Nat → ServiceState
  | s, [], _, _ => s
  | s, req :: rest, envs, i => process_all (process_request s req (envs i)) rest envs (i + 1)

/-- The content flush never touches the operation log. -/
theorem save_document_content_operations (db : DB) (document_id user_id : Nat)
    (content : String) (now : Int) (commit_ok : Bool) :
    (save_document_content db document_id user_id content now commit_ok).operations =
      db.operations := by
  unfold save_document_content
  cases commit_ok with
  | false => rfl
  | true =>
    cases h : db.documents document_id with
    | none => rfl
    | some document => by_cases hc : document.content = content <;> simp [hc]

/-- C4 counterexample: a request for a document with no transient state and
no stored row makes the policy approve, the flush skips (the store is
returned untouched, so no actual save happened), and yet the worker creates
the tracker entry — the claim says the entry must stay unchanged. -/
theorem tracker_updated_despite_skipped_flush :
    (process_request
        { db := { documents := fun _ => none, versions := [], operations := [] }
          document_states := fun _ => none }
        { document_id := 1, user_id := 2, content := "hello", operation := none }
        { now := 0, loop_time := 0, op_row_id := 0,
          save_commit_ok := true, op_commit_ok := true }).db.documents 1 = none ∧
    (process_request
        { db := { documents := fun _ => none, versions := [], operations := [] }
          document_states := fun _ => none }
        { document_id := 1, user_id := 2, content := "hello", operation := none }
        { now := 0, loop_time := 0, op_row_id := 0,
          save_commit_ok := true, op_commit_ok := true }).db.versions = [] ∧
    (process_request
        { db := { documents := fun _ => none, versions := [], operations := [] }
          document_states := fun _ => none }
        { document_id := 1, user_id := 2, content := "hello", operation := none }
        { now := 0, loop_time := 0, op_row_id := 0,
          save_commit_ok := true, op_commit_ok := true }).document_states 1 ≠
      (none : Option DocState) := by
  refine ⟨rfl, rfl, ?_⟩
  intro h
  simp [process_request, should_save_document, save_document_content,
    update_document_state] at h

/-- C4 (amended): the worker updates the per-document tracker entry exactly
when the save policy approved the request — including when the flush step
itself skipped (missing document, duplicate content) or its commit failed —
and it leaves the entry unchanged when the policy said skip; entries of
other documents are never touched. -/
theorem tracker_updated_iff_policy_saves (s : ServiceState) (req : SaveRequest)
    (env : StepEnv) :
    (should_save_document s.document_states req.document_id req.content env.now = true →
      (process_request s req env).document_states req.document_id =
        some { last_save := env.now, last_content := req.content }) ∧
    (should_save_document s.document_states req.document_id req.content env.now = false →
      (process_request s req env).document_states req.document_id =
        s.document_states req.document_id) ∧
    (∀ j, j ≠ req.document_id →
      (process_request s req env).document_states j = s.document_states j) := by
  have hstates : (process_request s req env).document_states =
      if should_save_document s.document_states req.document_id req.content env.now then
        update_document_state s.document_states req.document_id req.content env.now
      else
        s.document_states := by
    unfold process_request
    cases hs : should_save_document s.document_states req.document_id req.content env.now <;>
      cases req.operation <;> simp [hs]
  refine ⟨fun h => ?_, fun h => ?_, fun j hj => ?_⟩
  · rw [hstates, if_pos h]
    simp [update_document_state]
  · rw [hstates, h]
    simp
  · rw [hstates]
    cases hs : should_save_document s.document_states req.document_id req.content env.now
    · simp
    · simp [update_document_state, hj]

/-- Closed witness for the amended C4: a first-ever request for document 1
(no transient state) against an empty store — the policy approves, the flush
performs no actual save, and the tracker entry is created anyway, while
document 2's entry stays absent. -/
theorem tracker_updated_iff_policy_saves_witness :
    (process_request
        { db := { documents := fun _ => none, versions := [], operations := [] }
          document_states := fun _ => none }
        { document_id := 1, user_id := 2, content := "hello", operation := none }
        { now := 0, loop_time := 0, op_row_id := 0,
          save_commit_ok := true, op_commit_ok := true }).document_states 1 =
      some { last_save := 0, last_content := "hello" } ∧
    (process_request
        { db := { documents := fun _ => none, versions := [], operations := [] }
          document_states := fun _ => none }
        { document_id := 1, user_id := 2, content := "hello", operation := none }
        { now := 0, loop_time := 0, op_row_id := 0,
          save_commit_ok := true, op_commit_ok := true }).document_states 2 = none :=
  ⟨(tracker_updated_iff_policy_saves
      { db := { documents := fun _ => none, versions := [], operations := [] }
        document_states := fun _ => none }
      { document_id := 1, user_id := 2, content := "hello", operation := none }
      { now := 0, loop_time := 0, op_row_id := 0,
        save_commit_ok := true, op_commit_ok := true }).1 rfl,
   (tracker_updated_iff_policy_saves
      { db := { documents := fun _ => none, versions := [], operations := [] }
        document_states := fun _ => none }
      { document_id := 1, user_id := 2, content := "hello", operation := none }
      { now := 0, loop_time := 0, op_row_id := 0,
        save_commit_ok := true, op_commit_ok := true }).2.2 2 (by decide)⟩

/-- C6: a dequeued request that carries an operation payload gets exactly one
operation row appended after the (possibly skipped) flush step of the same
pass — the resulting log is the incoming log plus the new record at the end,
whatever the save policy decided and whatever the flush did, provided the
append's own commit succeeds. -/
theorem operation_appended_regardless_of_flush (s : ServiceState) (req : SaveRequest)
    (env : StepEnv) (operation : OpPayload)
    (hop : req.operation = some operation)
    (hok : env.op_commit_ok = true) :
    (process_request s req env).db.operations =
      s.db.operations ++
        [mk_operation_record req.document_id req.user_id operation
          env.op_row_id env.now env.loop_time] := by
  unfold process_request
  rw [hop]
  cases hs : should_save_document s.document_states req.document_id req.content env.now <;>
    simp [save_operation, hok, save_document_content_operations]

/-- Closed witness for C6: a request whose policy outcome is a skip (same
content as the tracker entry, fresh timestamp) still appends its operation
payload to the log. -/
theorem operation_appended_regardless_of_flush_witness :
    (process_request
        { db := { documents := fun _ => none, versions := [], operations := [] }
          document_states := fun i =>
            if i = 1 then some { last_save := 0, last_content := "hello" } else none }
        { document_id := 1, user_id := 2, content := "hello",
          operation := some { id := some "o9", sequence := some 4, type := some "insert",
                              position := some 3, content := some "lo" } }
        { now := 5, loop_time := 8, op_row_id := 11,
          save_commit_ok := true, op_commit_ok := true }).db.operations =
      [] ++
        [mk_operation_record 1 2
          { id := some "o9", sequence := some 4, type := some "insert",
            position := some 3, content := some "lo" } 11 5 8] :=
  operation_appended_regardless_of_flush
    { db := { documents := fun _ => none, versions := [], operations := [] }
      document_states := fun i =>
        if i = 1 then some { last_save := 0, last_content := "hello" } else none }
    { document_id := 1, user_id := 2, content := "hello",
      operation := some { id := some "o9", sequence := some 4, type := some "insert",
                          position := some 3, content := some "lo" } }
    { now := 5, loop_time := 8, op_row_id := 11,
      save_commit_ok := true, op_commit_ok := true }
    { id := some "o9", sequence := some 4, type := some "insert",
      position := some 3, content := some "lo" }
    rfl rfl

/-- C9: the worker loop is stopped by nothing but the sentinel: whatever the
per-step environments (including failing commits, which the step function
absorbs the way the code's try/except does), running the worker on a queue
holding real requests followed by the `none` sentinel processes exactly
those requests, in FIFO order, and ignores everything queued after the
sentinel. -/
theorem worker_drains_requests_until_sentinel (s : ServiceState)
    (reqs : List SaveRequest) (rest : List (Option SaveRequest))
    (envs : Nat → StepEnv) (i : Nat) :
    run_worker s (reqs.map some ++ none :: rest) envs i = process_all s reqs envs i := by
  induction reqs generalizing s i with
  | nil => rfl
  | cons req reqs ih =>
    simp only [List.map_cons, List.cons_append, run_worker, process_all]
    exact ih (process_request s req (envs i)) (i + 1)

/-- The operation rows of one document, in table order (the
`where DocumentOperation.document_id == document_id` clause). -/
def doc_operations (db : DB) (document_id : Nat) : List DocumentOperation :=
  db.operations.filter (fun o => o.document_id == document_id)

/-- Embeds the `order_by(DocumentOperation.created_at.desc())` clause:
newest-created first. -/
def sort_by_created_desc (ops : List DocumentOperation) : List DocumentOperation :=
  ops.mergeSort (fun a b => decide (b.created_at ≤ a.created_at))

/-- Embeds `cleanup_old_operations(document_id, keep_count)`: select the ids
of the document's operation rows past the first `keep_count` in
newest-created-first order, and when that set is non-empty delete exactly
the rows bearing those ids. -/
def cleanup_old_operations (db : DB) (document_id : Nat) (keep_count : Nat) : DB :=
  let old_operation_ids :=
    ((sort_by_created_desc (doc_operations db document_id)).drop keep_count).map
      (fun o => o.id)
  if old_operation_ids.isEmpty then
    db
  else
    { db with
      operations := db.operations.filter (fun o => decide (o.id ∉ old_operation_ids)) }

/-- C8: with primary keys unique, cleaning up a document that has at most
`keep_count` operation rows deletes nothing; with more than `keep_count`
rows, exactly the `keep_count` most recently created rows of that document
remain — the remaining rows are a permutation of the first `keep_count` of
the newest-first ordering, whose members all have creation times no older
than every deleted row. -/
theorem cleanup_retains_most_recent (db : DB) (document_id keep_count : Nat)
    (hids : (db.operations.map (fun o => o.id)).Nodup) :
    ((doc_operations db document_id).length ≤ keep_count →
      cleanup_old_operations db document_id keep_count = db) ∧
    (keep_count < (doc_operations db document_id).length →
      ((cleanup_old_operations db document_id keep_count).operations.filter
          (fun o => o.document_id == document_id)).Perm
        ((sort_by_created_desc (doc_operations db document_id)).take keep_count) ∧
      ((cleanup_old_operations db document_id keep_count).operations.filter
          (fun o => o.document_id == document_id)).length = keep_count ∧
      (∀ a ∈ (sort_by_created_desc (doc_operations db document_id)).take keep_count,
        ∀ b ∈ (sort_by_created_desc (doc_operations db document_id)).drop keep_count,
          b.created_at ≤ a.created_at)) := by
  set M := doc_operations db document_id with hM
  set sorted := sort_by_created_desc M with hsorted
  have hperm : sorted.Perm M := List.mergeSort_perm M _
  have hlen : sorted.length = M.length := hperm.length_eq
  constructor
  · intro hle
    have hdrop : sorted.drop keep_count = [] :=
      List.drop_eq_nil_of_le (hlen ▸ hle)
    simp [cleanup_old_operations, ← hM, ← hsorted, hdrop]
  · intro hlt
    have hdropne : sorted.drop keep_count ≠ [] := by
      intro h
      have := congrArg List.length h
      simp [hlen] at this
      omega
    have hcleanup : (cleanup_old_operations db document_id keep_count).operations =
        db.operations.filter (fun o =>
          decide (o.id ∉ ((sorted.drop keep_count).map (fun o => o.id)))) := by
      unfold cleanup_old_operations
      rw [← hM, ← hsorted]
      rw [if_neg (by simpa using hdropne)]
    -- The document's rows of the store are nodup, hence so is the sorted list.
    have hnodupOps : db.operations.Nodup := List.Nodup.of_map _ hids
    have hnodupM : M.Nodup := by
      rw [hM]; unfold doc_operations
      exact List.Nodup.filter _ hnodupOps
    have hnodupSorted : sorted.Nodup := hperm.symm.nodup hnodupM
    have hdisj : (sorted.take keep_count).Disjoint (sorted.drop keep_count) := by
      have := List.take_append_drop keep_count sorted
      have h2 : sorted.Nodup := hnodupSorted
      rw [← this, List.nodup_append] at h2
      exact h2.2.2
    -- Kept rows survive the id filter, dropped rows do not.
    have hmemM : ∀ o ∈ sorted, o ∈ db.operations := fun o ho =>
      List.mem_of_mem_filter (hperm.mem_iff.mp ho)
    have hkeep : ∀ o ∈ sorted.take keep_count,
        (decide (o.id ∉ ((sorted.drop keep_count).map (fun o => o.id)))) = true := by
      intro o ho
      simp only [decide_eq_true_eq]
      intro hmem
      rcases List.mem_map.mp hmem with ⟨b, hb, hid⟩
      have hob : b = o :=
        List.inj_on_of_nodup_map hids
          (hmemM b (List.mem_of_mem_drop hb))
          (hmemM o (List.mem_of_mem_take ho)) hid
      exact hdisj ho (hob ▸ hb)
    have hdropfail : ∀ o ∈ sorted.drop keep_count,
        ¬ (decide (o.id ∉ ((sorted.drop keep_count).map (fun o => o.id)))) = true := by
      intro o ho
      simp only [decide_eq_true_eq, not_not]
      exact List.mem_map.mpr ⟨o, ho, rfl⟩
    -- The remaining rows of the document are a permutation of the kept prefix.
    have hremain : ((cleanup_old_operations db document_id keep_count).operations.filter
        (fun o => o.document_id == document_id)).Perm (sorted.take keep_count) := by
      rw [hcleanup, List.filter_filter]
      have hcomm : (db.operations.filter (fun o =>
          (o.document_id == document_id) &&
            decide (o.id ∉ ((sorted.drop keep_count).map (fun o => o.id))))) =
          M.filter (fun o =>
            decide (o.id ∉ ((sorted.drop keep_count).map (fun o => o.id)))) := by
        rw [hM]; unfold doc_operations
        rw [List.filter_filter]
        congr 1
        funext o
        exact Bool.and_comm _ _
      rw [hcomm]
      have := (hperm.symm.filter (fun o =>
        decide (o.id ∉ ((sorted.drop keep_count).map (fun o => o.id)))))
      refine this.trans ?_
      have hsplit : sorted.filter (fun o =>
          decide (o.id ∉ ((sorted.drop keep_count).map (fun o => o.id)))) =
          (sorted.take keep_count).filter (fun o =>
            decide (o.id ∉ ((sorted.drop keep_count).map (fun o => o.id)))) ++
          (sorted.drop keep_count).filter (fun o =>
            decide (o.id ∉ ((sorted.drop keep_count).map (fun o => o.id)))) := by
        rw [← List.filter_append, List.take_append_drop]
      rw [hsplit, List.filter_eq_self.mpr hkeep,
        List.filter_eq_nil_iff.mpr hdropfail, List.append_nil]
    refine ⟨hremain, ?_, ?_⟩
    · rw [hremain.length_eq, List.length_take]
      omega
    · -- Sortedness of the mergeSort output gives the recency comparison.
      have hpair : List.Pairwise
          (fun a b => (fun a b : DocumentOperation =>
            decide (b.created_at ≤ a.created_at)) a b = true) sorted :=
        List.sorted_mergeSort
          (by
            intro a b c hab hbc
            simp only [decide_eq_true_eq] at hab hbc ⊢
            exact le_trans hbc hab)
          (by
            intro a b
            simp only [Bool.or_eq_true, decide_eq_true_eq]
            exact le_total b.created_at a.created_at)
          M
      rw [← List.take_append_drop keep_count sorted, List.pairwise_append] at hpair
      intro a ha b hb
      have := hpair.2.2 a ha b hb
      simpa using this

/-- Closed witness for C8: document 1 holds rows created at times 100 and
200 plus an unrelated row of document 2; keeping 1 row leaves exactly the
row created at 200. -/
theorem cleanup_retains_most_recent_witness :
    ((cleanup_old_operations
        { documents := fun _ => none
          versions := []
          operations :=
            [{ id := 1, document_id := 1, user_id := 2, operation_id := "a",
               sequence_number := 0, operation_type := OperationType.INSERT,
               start_position := 0, end_position := 0, content := "",
               created_at := 100 },
             { id := 2, document_id := 1, user_id := 2, operation_id := "b",
               sequence_number := 0, operation_type := OperationType.INSERT,
               start_position := 0, end_position := 0, content := "",
               created_at := 200 },
             { id := 3, document_id := 2, user_id := 2, operation_id := "c",
               sequence_number := 0, operation_type := OperationType.INSERT,
               start_position := 0, end_position := 0, content := "",
               created_at := 150 }] }
        1 1).operations.filter (fun o => o.document_id == 1)).length = 1 :=
  ((cleanup_retains_most_recent
      { documents := fun _ => none
        versions := []
        operations :=
          [{ id := 1, document_id := 1, user_id := 2, operation_id := "a",
             sequence_number := 0, operation_type := OperationType.INSERT,
             start_position := 0, end_position := 0, content := "",
             created_at := 100 },
           { id := 2, document_id := 1, user_id := 2, operation_id := "b",
             sequence_number := 0, operation_type := OperationType.INSERT,
             start_position := 0, end_position := 0, content := "",
             created_at := 200 },
           { id := 3, document_id := 2, user_id := 2, operation_id := "c",
             sequence_number := 0, operation_type := OperationType.INSERT,
             start_position := 0, end_position := 0, content := "",
             created_at := 150 }] }
      1 1 (by decide)).2 (by decide)).2.1

end DocStorage
